import Mathlib

/-!
Shallow embedding of the WhatsAppGoLang gateway (a Go multi-tenant WhatsApp
HTTP gateway) together with proofs about the properties its specification
states.  Bytes are `Nat` values below 256, 32-bit machine words are `Nat`
values reduced modulo 2^32, Go `time.Time` instants and `time.Duration`
values are `Int` nanosecond counts, and each stateful Go component becomes a
Lean function from an explicit state to a result and an updated state.
-/

namespace Crypto

/-- Modulus of a 32-bit machine word. -/
def w32 : Nat := 4294967296

/-- Bit mask of a 32-bit machine word. -/
def mask32 : Nat := 4294967295

/-- Right rotation of a 32-bit word held as a `Nat` below `2^32`. -/
def rotr32 (x n : Nat) : Nat :=
  ((x >>> n) ||| (x <<< (32 - n))) &&& mask32

/-- SHA-256 big sigma-0 word function. -/
def bigSigma0 (x : Nat) : Nat := rotr32 x 2 ^^^ rotr32 x 13 ^^^ rotr32 x 22

/-- SHA-256 big sigma-1 word function. -/
def bigSigma1 (x : Nat) : Nat := rotr32 x 6 ^^^ rotr32 x 11 ^^^ rotr32 x 25

/-- SHA-256 small sigma-0 word function. -/
def smallSigma0 (x : Nat) : Nat := rotr32 x 7 ^^^ rotr32 x 18 ^^^ (x >>> 3)

/-- SHA-256 small sigma-1 word function. -/
def smallSigma1 (x : Nat) : Nat := rotr32 x 17 ^^^ rotr32 x 19 ^^^ (x >>> 10)

/-- SHA-256 choice word function. -/
def ch (e f g : Nat) : Nat := (e &&& f) ^^^ ((e ^^^ mask32) &&& g)

/-- SHA-256 majority word function. -/
def maj (a b c : Nat) : Nat := (a &&& b) ^^^ (a &&& c) ^^^ (b &&& c)

/-- The 64 SHA-256 round constants of FIPS 180-4, written in decimal. -/
def roundConsts : List Nat :=
  [1116352408, 1899447441, 3049323471, 3921009573, 961987163, 1508970993,
   2453635748, 2870763221, 3624381080, 310598401, 607225278, 1426881987,
   1925078388, 2162078206, 2614888103, 3248222580, 3835390401, 4022224774,
   264347078, 604807628, 770255983, 1249150122, 1555081692, 1996064986,
   2554220882, 2821834349, 2952996808, 3210313671, 3336571891, 3584528711,
   113926993, 338241895, 666307205, 773529912, 1294757372, 1396182291,
   1695183700, 1986661051, 2177026350, 2456956037, 2730485921, 2820302411,
   3259730800, 3345764771, 3516065817, 3600352804, 4094571909, 275423344,
   430227734, 506948616, 659060556, 883997877, 958139571, 1322822218,
   1537002063, 1747873779, 1955562222, 2024104815, 2227730452, 2361852424,
   2428436474, 2756734187, 3204031479, 3329325298]

/-- The eight 32-bit words of a SHA-256 working state. -/
structure Hash8 where
  a : Nat
  b : Nat
  c : Nat
  d : Nat
  e : Nat
  f : Nat
  g : Nat
  h : Nat
deriving DecidableEq

/-- Initial SHA-256 hash state of FIPS 180-4, written in decimal. -/
def initH : Hash8 :=
  ⟨1779033703, 3144134277, 1013904242, 2773480762,
   1359893119, 2600822924, 528734635, 1541459225⟩

/-- Big-endian bytes of a value, `n` bytes wide. -/
def natToBytesBE (n v : Nat) : List Nat :=
  (List.range n).map (fun i => (v >>> (8 * (n - 1 - i))) % 256)

/-- Group a byte list into big-endian 32-bit words. -/
def toWords : List Nat → List Nat
  | a :: b :: c :: d :: rest => (((a * 256 + b) * 256 + c) * 256 + d) :: toWords rest
  | _ => []

/-- Append one word of the SHA-256 message schedule. -/
def extendStep (ws : List Nat) : List Nat :=
  let n := ws.length
  ws ++ [(ws.getD (n - 16) 0 + smallSigma0 (ws.getD (n - 15) 0) +
          ws.getD (n - 7) 0 + smallSigma1 (ws.getD (n - 2) 0)) % w32]

/-- Expand 16 message words to the 64-entry SHA-256 schedule. -/
def extendWords (ws : List Nat) : List Nat := Nat.repeat extendStep 48 ws

/-- One SHA-256 compression round. -/
def sha256Round (st : Hash8) (kw : Nat × Nat) : Hash8 :=
  let t1 := (st.h + bigSigma1 st.e + ch st.e st.f st.g + kw.1 + kw.2) % w32
  let t2 := (bigSigma0 st.a + maj st.a st.b st.c) % w32
  ⟨(t1 + t2) % w32, st.a, st.b, st.c, (st.d + t1) % w32, st.e, st.f, st.g⟩

/-- Compress one 64-byte block into the running hash state. -/
def compress (st : Hash8) (block : List Nat) : Hash8 :=
  let ws := extendWords (toWords block)
  let r := (roundConsts.zip ws).foldl sha256Round st
  ⟨(st.a + r.a) % w32, (st.b + r.b) % w32, (st.c + r.c) % w32, (st.d + r.d) % w32,
   (st.e + r.e) % w32, (st.f + r.f) % w32, (st.g + r.g) % w32, (st.h + r.h) % w32⟩

/-- SHA-256 padding: a 0x80 byte, zeros to 56 mod 64, then the bit length. -/
def padMessage (msg : List Nat) : List Nat :=
  let len := msg.length
  let zeros := (119 - (len % 64)) % 64
  msg ++ 128 :: List.replicate zeros 0 ++ natToBytesBE 8 (len * 8)

/-- Split a byte list into consecutive 64-byte blocks, counted by fuel. -/
def toBlocksAux : Nat → List Nat → List (List Nat)
  | 0, _ => []
  | Nat.succ n, l => l.take 64 :: toBlocksAux n (l.drop 64)

/-- Split a padded message into its 64-byte blocks. -/
def toBlocks (l : List Nat) : List (List Nat) := toBlocksAux (l.length / 64) l

/-- SHA-256 digest of a byte list, as 32 bytes. -/
def sha256 (msg : List Nat) : List Nat :=
  let fin := (toBlocks (padMessage msg)).foldl compress initH
  ([fin.a, fin.b, fin.c, fin.d, fin.e, fin.f, fin.g, fin.h].map (natToBytesBE 4)).flatten

/-- HMAC-SHA256 with 64-byte block size, as in RFC 2104 and Go crypto/hmac. -/
def hmacSha256 (key msg : List Nat) : List Nat :=
  let k0 := if key.length > 64 then sha256 key else key
  let kpad := k0 ++ List.replicate (64 - k0.length) 0
  let ipad := kpad.map (fun b => b ^^^ 54)
  let opad := kpad.map (fun b => b ^^^ 92)
  sha256 (opad ++ sha256 (ipad ++ msg))

/-- Lowercase hexadecimal digit for a value below 16. -/
def hexDigit (n : Nat) : Char :=
  if n < 10 then Char.ofNat (48 + n) else Char.ofNat (87 + n)

/-- Lowercase hexadecimal rendering of a byte list. -/
def hexOfBytes (bs : List Nat) : String :=
  String.mk (bs.foldr (fun b acc => hexDigit (b / 16) :: hexDigit (b % 16) :: acc) [])

/-- Byte list of an ASCII string, one byte per character. -/
def asciiBytes (s : String) : List Nat := s.data.map Char.toNat

end Crypto

namespace Webhooks

/-- The webhook sender, from internal/webhooks/sender.go: a base URL and a
signing secret (held here as its raw bytes, as Go casts the string). -/
structure Sender where
  baseURL : String
  signingSecret : List Nat

/-- An outgoing HTTP request as the sender builds it: target URL, headers in
the order they are set, and the exact body bytes. -/
structure HttpRequest where
  url : String
  headers : List (String × String)
  body : List Nat
deriving DecidableEq

/-- Outcome of the single httpClient.Do call inside Send: either a transport
error or a response with an HTTP status code. -/
inductive HttpOutcome where
  | netError
  | status (code : Int)
deriving DecidableEq

/-- Result of one Send call: how many HTTP attempts were made and the error
returned, if any. -/
structure SendResult where
  attempts : Nat
  err : Option String
deriving DecidableEq

/-- Sender.sign from sender.go: the string sha256= followed by the lowercase
hex encoding of HMAC-SHA256 keyed with the signing secret over the data. -/
def senderSign (secret data : List Nat) : String :=
  "sha256=" ++ Crypto.hexOfBytes (Crypto.hmacSha256 secret data)

/-- The request Sender.Send builds for marshalled body bytes jsonData and the
payload's request id: URL baseURL/endpoint and the three headers set in
sender.go, with X-WA-Signature computed by sign over jsonData. -/
def buildRequest (s : Sender) (endpoint : String) (jsonData : List Nat)
    (requestID : String) : HttpRequest :=
  { url := s.baseURL ++ "/" ++ endpoint
    headers := [("Content-Type", "application/json"),
                ("X-WA-Signature", senderSign s.signingSecret jsonData),
                ("X-Request-ID", requestID)]
    body := jsonData }

/-- The result of Sender.Send given the outcome of its one httpClient.Do
call: exactly one attempt is made; a transport error or a status of 300 or
more is returned as an error, anything below 300 succeeds.  sender.go has no
retry loop. -/
def sendResult (o : HttpOutcome) : SendResult :=
  match o with
  | .netError => ⟨1, some "failed to send webhook"⟩
  | .status code =>
      if 300 ≤ code then ⟨1, some "webhook returned non-2xx status"⟩
      else ⟨1, none⟩

/-- Look a header up by name in the order Send set them. -/
def findHeader : List (String × String) → String → Option String
  | [], _ => none
  | (k, v) :: rest, name => if k = name then some v else findHeader rest name

end Webhooks

namespace Middleware

/-- Sixty seconds in nanoseconds, Go's time.Minute as an Int duration. -/
def minuteNS : Int := 60000000000

/-- Rate limiter configuration, from internal/middleware/ratelimit.go:
per-account capacity and the jitter range in milliseconds. -/
structure RateLimiter where
  perMinute : Int
  jitterMinMS : Int
  jitterMaxMS : Int

/-- One per-account token bucket: remaining tokens and the instant of the
last full refill, in nanoseconds. -/
structure AccountLimit where
  tokens : Int
  lastRefill : Int
deriving DecidableEq

/-- The refill step of RateLimiter.allow: when at least a minute has passed
since lastRefill, reset tokens to the capacity and lastRefill to now. -/
def refill (rl : RateLimiter) (st : AccountLimit) (now : Int) : AccountLimit :=
  if minuteNS ≤ now - st.lastRefill then ⟨rl.perMinute, now⟩ else st

/-- The admission step of RateLimiter.allow: admit and decrement when a token
remains, otherwise reject. -/
def consumeToken (st : AccountLimit) : Bool × AccountLimit :=
  if 0 < st.tokens then (true, ⟨st.tokens - 1, st.lastRefill⟩) else (false, st)

/-- RateLimiter.allow for an existing bucket at instant now: refill if a
minute has elapsed, then consume a token if one remains. -/
def allow (rl : RateLimiter) (st : AccountLimit) (now : Int) : Bool × AccountLimit :=
  consumeToken (refill rl st now)

/-- A fresh bucket as allow creates it on first sight of an account. -/
def newLimit (rl : RateLimiter) (now : Int) : AccountLimit :=
  ⟨rl.perMinute, now⟩

/-- Run a sequence of allow calls at the given instants, counting how many
were admitted and returning the final bucket state. -/
def allowRun (rl : RateLimiter) (st : AccountLimit) : List Int → Nat × AccountLimit
  | [] => (0, st)
  | t :: ts =>
      let r := allow rl st t
      let rest := allowRun rl r.2 ts
      (r.1.toNat + rest.1, rest.2)

/-- RateLimiter.getJitter with the draw of rand.Intn supplied explicitly:
zero when both bounds are zero, the minimum when the range is empty, and
otherwise the minimum plus the draw, all in milliseconds. -/
def getJitter (rl : RateLimiter) (draw : Int) : Int :=
  if rl.jitterMinMS = 0 ∧ rl.jitterMaxMS = 0 then 0
  else if rl.jitterMaxMS - rl.jitterMinMS ≤ 0 then rl.jitterMinMS
  else rl.jitterMinMS + draw

end Middleware

namespace Store

/-- A whatsmeow device, identified by its row identity. -/
structure Device where
  id : Nat
deriving DecidableEq

/-- The whatsmeow sqlstore container as GetDeviceStore sees it: the persisted
devices in order, and a counter for minting fresh unsaved devices. -/
structure Container where
  devices : List Device
  nextID : Nat
deriving DecidableEq

/-- container.NewDevice: a fresh device that is not yet persisted. -/
def newDevice (c : Container) : Device × Container :=
  (⟨c.nextID⟩, ⟨c.devices, c.nextID + 1⟩)

/-- PostgresStore.GetDeviceStore from internal/store/postgres.go: when no
device is persisted, mint a new one; otherwise return the first persisted
device.  The waAccountID argument is not consulted. -/
def getDeviceStore (c : Container) (waAccountID : String) : Device × Container :=
  match c.devices with
  | [] => newDevice c
  | d :: _ => (d, c)

end Store

namespace WaMgr

/-- One managed session as the client manager and reaper see it: last
activity instant in nanoseconds, the Connected flag, and whether the
underlying whatsmeow handle still holds a live stream. -/
structure Session where
  lastActivity : Int
  connected : Bool
  handleLive : Bool
deriving DecidableEq

/-- The client manager state: the registry keyed by account id, and whether
stopChan has already been closed. -/
structure CMState where
  clients : List (String × Session)
  stopClosed : Bool
deriving DecidableEq

/-- The panic a second close of an already-closed Go channel raises. -/
inductive PanicKind where
  | closeOfClosedChannel
deriving DecidableEq

/-- The body of the reaper loop in performCleanup for one session: when the
session is connected and lastActivity is strictly before now minus the idle
TTL, disconnect the handle and clear Connected; otherwise leave it alone. -/
def reapOne (ttl now : Int) (s : Session) : Session :=
  if s.lastActivity < now - ttl ∧ s.connected then ⟨s.lastActivity, false, false⟩ else s

/-- ClientManager.performCleanup: apply the reaper body to every registered
session, deleting nothing from the registry. -/
def performCleanup (ttl now : Int) (cs : List (String × Session)) : List (String × Session) :=
  cs.map (fun p => (p.1, reapOne ttl now p.2))

/-- The disconnect loop of DisconnectAll for one session: disconnect the
handle and clear Connected when connected. -/
def shutdownOne (s : Session) : Session :=
  if s.connected then ⟨s.lastActivity, false, false⟩ else s

/-- ClientManager.DisconnectAll: disconnect every connected session, then
close stopChan.  Closing an already-closed channel panics, so a second call
fails instead of returning a state. -/
def disconnectAll (st : CMState) : Except PanicKind CMState :=
  let cleared := st.clients.map (fun p => (p.1, shutdownOne p.2))
  if st.stopClosed then Except.error PanicKind.closeOfClosedChannel
  else Except.ok ⟨cleared, true⟩

end WaMgr

namespace Events

/-- An upstream receipt event as handleReceiptEvent reads it: chat, receipt
type rendered as a string, timestamp in Unix seconds, the message ids it
covers, and the sender when present. -/
structure Receipt where
  chat : String
  rtype : String
  timestamp : Int
  messageIDs : List String
  sender : Option String
deriving DecidableEq

/-- The data fields handleReceiptEvent puts into the webhook payload. -/
structure ReceiptData where
  event : String
  chat : String
  rtype : String
  timestamp : Int
  messageIDs : List String
  sender : Option String
deriving DecidableEq

/-- One webhook envelope as the event router hands it to the sender: the
endpoint given to Send, the payload's event_type, the account, and the
receipt data. -/
structure Envelope where
  endpoint : String
  eventType : String
  waAccountID : String
  data : ReceiptData
deriving DecidableEq

/-- handleReceiptEvent from internal/wa/events.go: build one payload carrying
the whole message id list and send it once to the receipt endpoint with
event_type receipt. -/
def handleReceiptEvent (acct : String) (r : Receipt) : List Envelope :=
  [{ endpoint := "receipt"
     eventType := "receipt"
     waAccountID := acct
     data := ⟨"receipt", r.chat, r.rtype, r.timestamp, r.messageIDs, r.sender⟩ }]

end Events

namespace Handlers

/-- Modelled from the spec: the in-memory IdempotencyStore of package wa
(wa.NewIdempotencyStore and CheckAndStore are not under src/; only their
caller in internal/handlers/message.go is).  The store maps a caller key to
the recorded message id; section 4.3 of the spec gives check_and_store and
requires that a second call from the same request may upgrade the empty
placeholder to the real id while a real id is never overwritten. -/
def IdemStore : Type := List (String × String)

/-- Look a key up in the idempotency store. -/
def lookupKey : List (String × String) → String → Option String
  | [], _ => none
  | (k, v) :: rest, key => if k = key then some v else lookupKey rest key

/-- Overwrite the record for a key with a new message id. -/
def updateKey : List (String × String) → String → String → List (String × String)
  | [], _, _ => []
  | (k, v) :: rest, key, mid =>
      if k = key then (k, mid) :: updateKey rest key mid
      else (k, v) :: updateKey rest key mid

/-- Modelled from the spec: check_and_store(key, message_id).  An empty key
bypasses; an existing record answers (record.message_id, true), upgrading an
empty placeholder when a real id is supplied; otherwise the pair is inserted
and ( , false) returned. -/
def checkAndStore (st : List (String × String)) (key mid : String) :
    (String × Bool) × List (String × String) :=
  if key = "" then (("", false), st)
  else
    match lookupKey st key with
    | some existing =>
        ((existing, true),
         if existing = "" ∧ mid ≠ "" then updateKey st key mid else st)
    | none => (("", false), (key, mid) :: st)

/-- The environment one SendMessage request runs in: whether
GetOrCreateClient succeeds, whether the session is connected, whether the
recipient JID parses, whether the message builds, and the upstream send
outcome (the new message id on success). -/
structure SendEnv where
  clientOk : Bool
  connected : Bool
  jidOk : Bool
  buildOk : Bool
  sendOutcome : Option String
deriving DecidableEq

/-- The response body SendMessage writes: HTTP status, message_id, the
duplicate flag, and the error kind on failure. -/
structure Response where
  status : Nat
  messageID : String
  duplicate : Bool
  errorKind : Option String
deriving DecidableEq

/-- What a SendMessage run produces: the response, the idempotency store
afterwards, and how many upstream sends were attempted. -/
structure SendOutcome where
  resp : Response
  store : List (String × String)
  upstreamSends : Nat
deriving DecidableEq

/-- The tail of MessageHandler.SendMessage after the idempotency check:
client lookup, connectivity check, JID parse, message build, the upstream
send, and on success the second CheckAndStore call that records the real
message id. -/
def sendCore (env : SendEnv) (st : List (String × String)) (key : String) : SendOutcome :=
  if env.clientOk = false then ⟨⟨500, "", false, some "client_not_available"⟩, st, 0⟩
  else if env.connected = false then ⟨⟨400, "", false, some "not_connected"⟩, st, 0⟩
  else if env.jidOk = false then ⟨⟨400, "", false, some "invalid_recipient"⟩, st, 0⟩
  else if env.buildOk = false then ⟨⟨400, "", false, some "message_build_failed"⟩, st, 0⟩
  else
    match env.sendOutcome with
    | none => ⟨⟨500, "", false, some "send_failed"⟩, st, 1⟩
    | some mid =>
        let st2 := if key ≠ "" then (checkAndStore st key mid).2 else st
        ⟨⟨200, mid, false, none⟩, st2, 1⟩

/-- MessageHandler.SendMessage from internal/handlers/message.go: with a
non-empty idempotency key, first call CheckAndStore with an empty id; a
duplicate returns 200 with the stored id and duplicate true without sending;
otherwise the request proceeds with the placeholder recorded. -/
def sendMessage (env : SendEnv) (st : List (String × String)) (key : String) : SendOutcome :=
  if key ≠ "" then
    let r := checkAndStore st key ""
    if r.1.2 then ⟨⟨200, r.1.1, true, none⟩, r.2, 0⟩
    else sendCore env r.2 key
  else sendCore env st key

end Handlers

set_option maxRecDepth 8000 in
example : Crypto.hexOfBytes (Crypto.sha256 (Crypto.asciiBytes "abc")) =
    "ba7816bf8f01cfea414140de5dae2223b00361a396177a9cb410ff61f20015ad" := by rfl

set_option maxRecDepth 8000 in
example : Crypto.hexOfBytes (Crypto.sha256 []) =
    "e3b0c44298fc1c149afbf4c8996fb92427ae41e4649b934ca495991b7852b855" := by rfl

set_option maxRecDepth 24000 in
example : Crypto.hexOfBytes (Crypto.hmacSha256 (Crypto.asciiBytes "key")
      (Crypto.asciiBytes "The quick brown fox jumps over the lazy dog")) =
    "f7bc83f430538424b13298e6aa6fb143ef4d59a14946175997479dbc2d1a3cd8" := by rfl

/-- While every check in a run happens less than a minute after the bucket's
last refill, no reset fires: the admitted count is bounded by the starting
token count and lastRefill never moves. -/
theorem allowRun_window (rl : Middleware.RateLimiter) (ts : List Int) :
    ∀ st : Middleware.AccountLimit,
      (∀ t ∈ ts, t - st.lastRefill < Middleware.minuteNS) →
      (Middleware.allowRun rl st ts).1 ≤ st.tokens.toNat ∧
      (Middleware.allowRun rl st ts).2.lastRefill = st.lastRefill := by
  induction ts with
  | nil => intro st _; simp [Middleware.allowRun]
  | cons t ts ih =>
      intro st hwin
      have hlt : t - st.lastRefill < Middleware.minuteNS := hwin t (by simp)
      have hnr : ¬ Middleware.minuteNS ≤ t - st.lastRefill := by omega
      by_cases hp : 0 < st.tokens
      · have hstep : Middleware.allow rl st t =
            (true, ⟨st.tokens - 1, st.lastRefill⟩) := by
          simp [Middleware.allow, Middleware.refill, Middleware.consumeToken, hnr, hp]
        have ihr := ih ⟨st.tokens - 1, st.lastRefill⟩
          (fun u hu => hwin u (List.mem_cons_of_mem t hu))
        simp only [Middleware.allowRun, hstep, Bool.toNat_true]
        refine ⟨?_, ihr.2⟩
        have h1 : (Middleware.allowRun rl ⟨st.tokens - 1, st.lastRefill⟩ ts).1 ≤
            (st.tokens - 1).toNat := ihr.1
        omega
      · have hstep : Middleware.allow rl st t = (false, st) := by
          simp [Middleware.allow, Middleware.refill, Middleware.consumeToken, hnr, hp]
        have ihr := ih st (fun u hu => hwin u (List.mem_cons_of_mem t hu))
        simp only [Middleware.allowRun, hstep, Bool.toNat_false]
        refine ⟨?_, ihr.2⟩
        have h1 := ihr.1
        omega

/-- Claim C2: for a bucket of capacity C, a run of admission checks all made
less than sixty seconds after the bucket's last refill admits at most C
requests; a check made sixty seconds or more after the last refill resets the
tokens to exactly C and the last refill to now; and one allow call keeps the
token count at or below C. -/
theorem C2_rate_bucket (rl : Middleware.RateLimiter) (st : Middleware.AccountLimit)
    (ts : List Int) (now : Int)
    (hcap : st.tokens ≤ rl.perMinute)
    (hwin : ∀ t ∈ ts, t - st.lastRefill < Middleware.minuteNS) :
    (Middleware.allowRun rl st ts).1 ≤ rl.perMinute.toNat ∧
    (Middleware.minuteNS ≤ now - st.lastRefill →
      Middleware.refill rl st now = ⟨rl.perMinute, now⟩) ∧
    (Middleware.allow rl st now).2.tokens ≤ rl.perMinute := by
  refine ⟨?_, ?_, ?_⟩
  · have h := allowRun_window rl ts st hwin
    omega
  · intro h
    simp [Middleware.refill, h]
  · unfold Middleware.allow Middleware.consumeToken Middleware.refill
    split_ifs <;> simp <;> omega

/-- Claim C2, witness: a full bucket of capacity 15, three in-window checks,
and a check exactly one minute after the refill instant. -/
theorem C2_rate_bucket_witness :
    (Middleware.allowRun ⟨15, 200, 600⟩ ⟨15, 0⟩ [1, 2, 3]).1 ≤ (15 : Int).toNat ∧
    (Middleware.minuteNS ≤ Middleware.minuteNS - 0 →
      Middleware.refill ⟨15, 200, 600⟩ ⟨15, 0⟩ Middleware.minuteNS =
        ⟨15, Middleware.minuteNS⟩) ∧
    (Middleware.allow ⟨15, 200, 600⟩ ⟨15, 0⟩ Middleware.minuteNS).2.tokens ≤ 15 :=
  C2_rate_bucket ⟨15, 200, 600⟩ ⟨15, 0⟩ [1, 2, 3] Middleware.minuteNS
    (by decide) (by decide)

/-- Claim C7, counterexample: with jitter_min_ms = jitter_max_ms = 300 the
range is empty, yet getJitter returns 300 milliseconds, not the 0 the claim
states. -/
theorem C7_jitter_counterexample :
    ¬ ((⟨15, 300, 300⟩ : Middleware.RateLimiter).jitterMinMS <
       (⟨15, 300, 300⟩ : Middleware.RateLimiter).jitterMaxMS) ∧
    Middleware.getJitter ⟨15, 300, 300⟩ 0 = 300 ∧ (300 : Int) ≠ 0 := by
  decide

/-- Claim C7 as amended: when jitter_min_ms is below jitter_max_ms the delay
lies in the half-open range between them; otherwise the delay equals
jitter_min_ms (which is 0 in the all-zero configuration). -/
theorem C7_jitter_amended (rl : Middleware.RateLimiter) (draw : Int)
    (hdraw : rl.jitterMinMS < rl.jitterMaxMS →
      0 ≤ draw ∧ draw < rl.jitterMaxMS - rl.jitterMinMS) :
    (rl.jitterMinMS < rl.jitterMaxMS →
      rl.jitterMinMS ≤ Middleware.getJitter rl draw ∧
      Middleware.getJitter rl draw < rl.jitterMaxMS) ∧
    (¬ rl.jitterMinMS < rl.jitterMaxMS →
      Middleware.getJitter rl draw = rl.jitterMinMS) := by
  constructor
  · intro hlt
    obtain ⟨h0, h1⟩ := hdraw hlt
    unfold Middleware.getJitter
    split_ifs with hz hr
    · omega
    · omega
    · constructor <;> omega
  · intro hge
    unfold Middleware.getJitter
    split_ifs with hz hr
    · omega
    · rfl
    · omega


/-- Claim C7 witness: the default configuration 200 to 600 with draw 0. -/
theorem C7_jitter_amended_witness :
    ((200 : Int) < 600 →
      (200 : Int) ≤ Middleware.getJitter ⟨15, 200, 600⟩ 0 ∧
      Middleware.getJitter ⟨15, 200, 600⟩ 0 < 600) ∧
    (¬ (200 : Int) < 600 → Middleware.getJitter ⟨15, 200, 600⟩ 0 = 200) :=
  C7_jitter_amended ⟨15, 200, 600⟩ 0 (by decide)

/-- Claim C6, counterexample: on an HTTP 500 response the sender makes
exactly one attempt and returns an error; it never makes the second attempt
the claimed retry policy would require. -/
theorem C6_webhook_retry_counterexample :
    Webhooks.sendResult (Webhooks.HttpOutcome.status 500) =
      ⟨1, some "webhook returned non-2xx status"⟩ ∧
    ¬ 2 ≤ (Webhooks.sendResult (Webhooks.HttpOutcome.status 500)).attempts := by
  decide

/-- Claim C6 as amended: Sender.Send makes exactly one delivery attempt; a
network error or any status of 300 or more (including 5xx, 408 and 429) is
returned as an error with no retry and no backoff. -/
theorem C6_webhook_single_attempt (o : Webhooks.HttpOutcome) :
    (Webhooks.sendResult o).attempts = 1 ∧
    ((Webhooks.sendResult o).err = none ↔
      ∃ c, o = Webhooks.HttpOutcome.status c ∧ c < 300) := by
  cases o with
  | netError => simp [Webhooks.sendResult]
  | status c =>
      by_cases h : (300 : Int) ≤ c <;>
        simp [Webhooks.sendResult, h] <;> omega

/-- Claim C4: the request Sender.Send builds carries an X-WA-Signature header
equal to sha256= followed by the lowercase hex HMAC-SHA256, keyed with the
signing secret, of exactly the body bytes of that request. -/
theorem C4_signature_header (s : Webhooks.Sender) (endpoint : String)
    (jsonData : List Nat) (requestID : String) :
    Webhooks.findHeader
        (Webhooks.buildRequest s endpoint jsonData requestID).headers
        "X-WA-Signature" =
      some ("sha256=" ++ Crypto.hexOfBytes (Crypto.hmacSha256 s.signingSecret
        (Webhooks.buildRequest s endpoint jsonData requestID).body)) ∧
    (Webhooks.buildRequest s endpoint jsonData requestID).body = jsonData := by
  exact ⟨rfl, rfl⟩

/-- Claim C5, counterexample: a delivered receipt carrying two message ids
produces one envelope with event_type receipt, not two envelopes with
event_type delivery. -/
theorem C5_receipt_counterexample :
    (Events.handleReceiptEvent "acct-1"
        ⟨"chat-1", "delivered", 5, ["m1", "m2"], none⟩).map
        (fun e => e.eventType) = ["receipt"] ∧
    ("receipt" : String) ≠ "delivery" ∧
    (Events.handleReceiptEvent "acct-1"
        ⟨"chat-1", "delivered", 5, ["m1", "m2"], none⟩).length ≠ 2 := by
  decide

/-- Claim C5 as amended: for every upstream receipt event the router emits
exactly one webhook envelope, with event_type receipt, posted to the receipt
endpoint, whose payload carries the whole message id list and the raw receipt
type. -/
theorem C5_receipt_single_envelope (acct : String) (r : Events.Receipt) :
    Events.handleReceiptEvent acct r =
      [⟨"receipt", "receipt", acct,
        ⟨"receipt", r.chat, r.rtype, r.timestamp, r.messageIDs, r.sender⟩⟩] ∧
    (Events.handleReceiptEvent acct r).length = 1 :=
  ⟨rfl, rfl⟩

/-- Claim C1: with one persisted device, GetDeviceStore resolves the two
distinct accounts A and B to the same device, so they would share
credentials; the account argument is never consulted. -/
theorem C1_device_store_shared :
    ("A" : String) ≠ "B" ∧
    (Store.getDeviceStore ⟨[⟨1⟩], 2⟩ "A").1 = (Store.getDeviceStore ⟨[⟨1⟩], 2⟩ "B").1 := by
  decide

/-- Claim C8: the first DisconnectAll call disconnects every connected
session and stops the reaper, but a second call panics by closing the
already-closed stop channel, so the operation is not idempotent. -/
theorem C8_disconnect_all_second_call_panics :
    WaMgr.disconnectAll ⟨[("acct-1", ⟨0, true, true⟩)], false⟩ =
      Except.ok ⟨[("acct-1", ⟨0, false, false⟩)], true⟩ ∧
    WaMgr.disconnectAll ⟨[("acct-1", ⟨0, false, false⟩)], true⟩ =
      Except.error WaMgr.PanicKind.closeOfClosedChannel :=
  ⟨rfl, rfl⟩

/-- Claim C9, counterexample: a session whose last activity is exactly the
idle TTL in the past is at least the TTL idle, yet one reaper pass leaves it
connected, because performCleanup tests strict inequality. -/
theorem C9_reaper_boundary_counterexample :
    (100 : Int) - 0 ≥ 100 ∧
    WaMgr.reapOne 100 100 ⟨0, true, true⟩ = ⟨0, true, true⟩ ∧
    (WaMgr.reapOne 100 100 ⟨0, true, true⟩).connected = true := by
  decide

/-- Claim C9 as amended: a registered session that is connected and whose
last activity is strictly more than the idle TTL in the past is, after one
reaper pass, disconnected with its handle closed, while the registry keeps
the same number of records. -/
theorem C9_reaper_strict_idle (ttl now : Int) (cs : List (String × WaMgr.Session))
    (a : String) (s : WaMgr.Session)
    (hmem : (a, s) ∈ cs) (hconn : s.connected = true)
    (hidle : s.lastActivity < now - ttl) :
    (a, (⟨s.lastActivity, false, false⟩ : WaMgr.Session)) ∈
      WaMgr.performCleanup ttl now cs ∧
    (WaMgr.performCleanup ttl now cs).length = cs.length := by
  constructor
  · have hreap : WaMgr.reapOne ttl now s = ⟨s.lastActivity, false, false⟩ := by
      simp [WaMgr.reapOne, hconn, hidle]
    have := List.mem_map_of_mem (fun p => (p.1, WaMgr.reapOne ttl now p.2)) hmem
    simpa [WaMgr.performCleanup, hreap] using this
  · simp [WaMgr.performCleanup]

/-- Claim C9 witness: TTL 100, now 201, one connected session last active at
instant 100. -/
theorem C9_reaper_strict_idle_witness :
    ("acct-1", (⟨100, false, false⟩ : WaMgr.Session)) ∈
      WaMgr.performCleanup 100 201 [("acct-1", ⟨100, true, true⟩)] ∧
    (WaMgr.performCleanup 100 201 [("acct-1", ⟨100, true, true⟩)]).length =
      [("acct-1", (⟨100, true, true⟩ : WaMgr.Session))].length :=
  C9_reaper_strict_idle 100 201 [("acct-1", ⟨100, true, true⟩)] "acct-1"
    ⟨100, true, true⟩ (by simp) rfl (by decide)

/-- In every failure branch of the send path after the idempotency
placeholder is recorded, the idempotency store is left untouched. -/
theorem sendCore_store_fail (env : Handlers.SendEnv)
    (st : List (String × String)) (key : String)
    (hfail : env.clientOk = false ∨ env.connected = false ∨ env.jidOk = false ∨
             env.buildOk = false ∨ env.sendOutcome = none) :
    (Handlers.sendCore env st key).store = st := by
  obtain ⟨c, k, j, b, o⟩ := env
  simp only at hfail
  unfold Handlers.sendCore
  rcases o with _ | mid
  · cases c <;> cases k <;> cases j <;> cases b <;> simp
  · cases c <;> cases k <;> cases j <;> cases b <;> simp_all

/-- Claim C3: two sequential sends with the same non-empty idempotency key,
where the first succeeds upstream with id M, initiate exactly one upstream
send; both responses are 200 and carry message id M, and the second response
carries duplicate true while the first does not. -/
theorem C3_idempotent_send (st0 : List (String × String)) (key M : String)
    (env1 env2 : Handlers.SendEnv)
    (hkey : key ≠ "") (hfresh : Handlers.lookupKey st0 key = none)
    (hc : env1.clientOk = true) (hcon : env1.connected = true)
    (hjid : env1.jidOk = true) (hb : env1.buildOk = true)
    (hsend : env1.sendOutcome = some M) (hM : M ≠ "") :
    (Handlers.sendMessage env1 st0 key).upstreamSends +
      (Handlers.sendMessage env2
        (Handlers.sendMessage env1 st0 key).store key).upstreamSends = 1 ∧
    (Handlers.sendMessage env1 st0 key).resp =
      ⟨200, M, false, none⟩ ∧
    (Handlers.sendMessage env2
      (Handlers.sendMessage env1 st0 key).store key).resp =
      ⟨200, M, true, none⟩ := by
  have h1 : Handlers.sendMessage env1 st0 key =
      ⟨⟨200, M, false, none⟩, (key, M) :: Handlers.updateKey st0 key M, 1⟩ := by
    simp [Handlers.sendMessage, Handlers.checkAndStore, hkey, hfresh,
          Handlers.sendCore, hc, hcon, hjid, hb, hsend, Handlers.lookupKey,
          Handlers.updateKey, hM]
  have h2 : Handlers.sendMessage env2
      ((key, M) :: Handlers.updateKey st0 key M) key =
      ⟨⟨200, M, true, none⟩, (key, M) :: Handlers.updateKey st0 key M, 0⟩ := by
    simp [Handlers.sendMessage, Handlers.checkAndStore, hkey,
          Handlers.lookupKey, hM]
  rw [h1]
  simp [h2]

/-- Claim C3 witness: key K-1 on an empty store, upstream id MID-9, with an
arbitrary second environment. -/
theorem C3_idempotent_send_witness :
    (Handlers.sendMessage ⟨true, true, true, true, some "MID-9"⟩ [] "K-1").upstreamSends +
      (Handlers.sendMessage ⟨false, false, false, false, none⟩
        (Handlers.sendMessage ⟨true, true, true, true, some "MID-9"⟩ [] "K-1").store
        "K-1").upstreamSends = 1 ∧
    (Handlers.sendMessage ⟨true, true, true, true, some "MID-9"⟩ [] "K-1").resp =
      ⟨200, "MID-9", false, none⟩ ∧
    (Handlers.sendMessage ⟨false, false, false, false, none⟩
      (Handlers.sendMessage ⟨true, true, true, true, some "MID-9"⟩ [] "K-1").store
      "K-1").resp = ⟨200, "MID-9", true, none⟩ :=
  C3_idempotent_send [] "K-1" "MID-9" ⟨true, true, true, true, some "MID-9"⟩
    ⟨false, false, false, false, none⟩ (by decide) rfl rfl rfl rfl rfl rfl (by decide)

/-- Claim C10: when a send with a fresh non-empty key fails after the
placeholder is recorded, the placeholder stays; every later request with that
key, whatever its environment, gets a 200 response with an empty message id
and duplicate true, attempts no upstream send, and leaves the store as it
was. -/
theorem C10_failed_send_poisons_key (st0 : List (String × String)) (key : String)
    (env1 env2 : Handlers.SendEnv)
    (hkey : key ≠ "") (hfresh : Handlers.lookupKey st0 key = none)
    (hfail : env1.clientOk = false ∨ env1.connected = false ∨ env1.jidOk = false ∨
             env1.buildOk = false ∨ env1.sendOutcome = none) :
    Handlers.lookupKey (Handlers.sendMessage env1 st0 key).store key = some "" ∧
    Handlers.sendMessage env2 (Handlers.sendMessage env1 st0 key).store key =
      ⟨⟨200, "", true, none⟩, (Handlers.sendMessage env1 st0 key).store, 0⟩ := by
  have hs1 : (Handlers.sendMessage env1 st0 key).store = (key, "") :: st0 := by
    simp [Handlers.sendMessage, hkey, Handlers.checkAndStore, hfresh,
          sendCore_store_fail env1 ((key, "") :: st0) key hfail]
  rw [hs1]
  constructor
  · simp [Handlers.lookupKey]
  · simp [Handlers.sendMessage, Handlers.checkAndStore, hkey, Handlers.lookupKey]

/-- Claim C10 witness: key K-2 on an empty store; the first request finds the
session not connected, the second request would succeed upstream yet is
answered from the store with an empty id. -/
theorem C10_failed_send_poisons_key_witness :
    Handlers.lookupKey
      (Handlers.sendMessage ⟨true, false, true, true, some "X"⟩ [] "K-2").store
      "K-2" = some "" ∧
    Handlers.sendMessage ⟨true, true, true, true, some "Y"⟩
      (Handlers.sendMessage ⟨true, false, true, true, some "X"⟩ [] "K-2").store
      "K-2" =
      ⟨⟨200, "", true, none⟩,
       (Handlers.sendMessage ⟨true, false, true, true, some "X"⟩ [] "K-2").store, 0⟩ :=
  C10_failed_send_poisons_key [] "K-2" ⟨true, false, true, true, some "X"⟩
    ⟨true, true, true, true, some "Y"⟩ (by decide) rfl (Or.inr (Or.inl rfl))

